import Mathlib

/-!
Verification of the myko-async repository: a shallow embedding of
`src/src/myko_async/device.py` (present in the repository) and of the
authentication module `auth` (only its tests are present under
`src/tests/test_auth.py`; the auth definitions below are therefore
modelled from the specification, as their doc comments state).
-/

set_option maxRecDepth 4096

namespace MykoAsync

/-! ## Device data model (from `src/src/myko_async/device.py`) -/

/-- State of a given function, mirroring the `HubSpaceState` dataclass.
Python's `value: Any` is modelled as `String`; `lastUpdateTime` is epoch ms. -/
structure HubSpaceState where
  functionClass : String
  value : String
  lastUpdateTime : Option Int := none
  functionInstance : Option String := none
  deriving Repr, DecidableEq

/-- The `HubSpaceDevice` dataclass fields. `functions: list[dict]` is modelled
as a list of string-keyed association lists. -/
structure HubSpaceDevice where
  id : String
  device_id : String
  model : String
  device_class : String
  default_name : String
  default_image : String
  friendly_name : String
  functions : List (List (String × String)) := []
  states : List HubSpaceState := []
  children : List String := []
  manufacturerName : Option String := none
  deriving Repr, DecidableEq

/-- `HubSpaceDevice.__post_init__` rewrites `self.model` by a sequence of
`if` statements; each test reads the value left by the previous one.
Python's `not self.model` is falsy exactly on the empty string here. -/
def post_init_model (model device_class default_image : String) : String :=
  let model :=
    if model = "" ∧ default_image = "ceiling-fan-snyder-park-icon" then
      "DriskolFan" else model
  let model :=
    if model = "" ∧ default_image = "ceiling-fan-vinings-icon" then
      "VinwoodFan" else model
  let model :=
    if device_class = "fan" ∧ model = "TBD" ∧
        default_image = "ceiling-fan-chandra-icon" then
      "ZandraFan" else model
  let model :=
    if model = "TBD" ∧ default_image = "ceiling-fan-ac-cct-dardanus-icon" then
      "NevaliFan" else model
  let model :=
    if device_class = "fan" ∧ model = "" ∧
        default_image = "ceiling-fan-slender-icon" then
      "TagerFan" else model
  let model := if model = "Smart Stake Timer" then "YardStake" else model
  let model :=
    if default_image = "a19-e26-color-cct-60w-smd-frosted-icon" then
      "12A19060WRGBWH2" else model
  model

/-- The effect of `HubSpaceDevice.__post_init__` on a freshly-built device. -/
def hubSpaceDevice_post_init (d : HubSpaceDevice) : HubSpaceDevice :=
  { d with model := post_init_model d.model d.device_class d.default_image }

/-- `HubSpaceDevice.__hash__` returns `hash((self.id, self.friendly_name))`. -/
def hubSpaceDevice_hash (d : HubSpaceDevice) : UInt64 :=
  hash (d.id, d.friendly_name)

/-! ## Token cache (`is_expired`, claim C3)

Modelled from the spec: `auth.py` is not under `src/`.  The spec says the
token cache holds `TokenData = {token, expiration}` and `isExpired` is
"true if no TokenData is cached, or if now >= TokenData.expiration". -/

/-- `TokenData`: the cached access token and its expiration instant
(seconds since the epoch, modelled as `Int`). -/
structure TokenData where
  token : String
  expiration : Int
  deriving Repr, DecidableEq

/-- Modelled from the spec: the `is_expired` query of the authentication
client, over its cached `Option TokenData` and the current instant. -/
def is_expired (cached : Option TokenData) (now : Int) : Bool :=
  match cached with
  | none => true
  | some td => decide (td.expiration ≤ now)

/-! ## Error taxonomy

Modelled from the spec: the error taxonomy of the auth module
(`TransportFailure`, `MalformedPage`, `MalformedFormAction`,
`MalformedQueryString`, `InvalidResponse`, `InvalidAuth`), each parsing
failure carrying its message. -/

/-- Modelled from the spec: the auth module's failure kinds. -/
inductive AuthError where
  | TransportFailure (status : Nat)
  | MalformedPage (msg : String)
  | MalformedFormAction (msg : String)
  | MalformedQueryString (msg : String)
  | InvalidResponse (msg : String)
  | InvalidAuth (msg : String)
  deriving Repr, DecidableEq

/-! ## Query-string parsing

Modelled from the spec: the auth module reads values out of URL query
strings (`urllib.parse.urlparse` + `parse_qs`).  `urlQuery` keeps what
follows the first `?`; `parseQs` keeps `key=value` pairs with a nonempty
value, as `parse_qs` does with its default arguments. -/

/-- The query component of a URL: everything after the first `?`
(empty when there is no `?`). -/
def urlQuery (url : String) : String :=
  match url.toList.dropWhile (fun c => c ≠ '?') with
  | [] => ""
  | _ :: rest => ⟨rest⟩

/-- Split a character list on a separator character. -/
def splitOnChar (sep : Char) : List Char → List (List Char)
  | [] => [[]]
  | c :: rest =>
    if c = sep then [] :: splitOnChar sep rest
    else
      match splitOnChar sep rest with
      | [] => [[c]]
      | g :: gs => (c :: g) :: gs

/-- One `key=value` query pair, split at the first `=`; pairs without an
`=` or with an empty value are dropped, as `parse_qs` drops them. -/
def parseQsPair (pair : List Char) : Option (String × String) :=
  match pair.dropWhile (fun c => c ≠ '=') with
  | [] => none
  | _ :: v =>
    if v.isEmpty then none
    else some (⟨pair.takeWhile (fun c => c ≠ '=')⟩, ⟨v⟩)

/-- Split a query string on `&` and keep the `key=value` pairs whose value
is nonempty, in order. -/
def parseQs (query : String) : List (String × String) :=
  (splitOnChar '&' query.toList).filterMap parseQsPair

/-- First value bound to `key` in the parsed query of `url`, if any. -/
def queryParam (url key : String) : Option String :=
  (parseQs (urlQuery url)).lookup key

/-! ## Login page parsing (`extract_login_data`, claim C1)

Modelled from the spec: `auth.py` is not under `src/`.  The parser
"locates the element carrying the login form's session identifier; if
absent, fails with MalformedPage"; then "locates the form's submission
URL attribute; if the attribute is missing or unparsable, fails with
MalformedFormAction"; then requires `session_code`, `execution` and
`tab_id` in the submission URL's query string, else MalformedQueryString.
The HTML page is modelled by what the parser looks up in it: whether the
session-identifier element is present, and the form's submission URL
attribute when it exists. -/

/-- A login HTML page, abstracted to the two lookups the parser performs:
presence of the session-identifier element, and the form-action attribute. -/
structure LoginPage where
  hasSessionElement : Bool
  formAction : Option String
  deriving Repr, DecidableEq

/-- The result of `extract_login_data` (`auth_sess_data` in the tests):
the session code, execution and tab id of the login form. -/
structure AuthSessData where
  sessionCode : String
  execution : String
  tabId : String
  deriving Repr, DecidableEq

/-- Modelled from the spec: `extract_login_data`.  All-or-nothing
extraction of `(sessionCode, execution, tabId)` from the login page. -/
def extract_login_data (page : LoginPage) : Except AuthError AuthSessData :=
  if ¬ page.hasSessionElement then
    .error (.MalformedPage "unable to parse login page")
  else
    match page.formAction with
    | none => .error (.MalformedFormAction "unable to extract login url")
    | some url =>
      match queryParam url "session_code", queryParam url "execution",
          queryParam url "tab_id" with
      | some s, some e, some t => .ok ⟨s, e, t⟩
      | _, _, _ => .error (.MalformedQueryString "unable to parse login url")

/-! ## Authorization-code capture (`generate_code`, claim C2)

Modelled from the spec: `generate_code` POSTs to the code endpoint and
inspects the raw response: status 302 with a `code` parameter in the
`location` header's query string succeeds; 302 without one is
`InvalidAuth`; any other status is `InvalidResponse`. -/

/-- An HTTP response as the auth module observes it: status, headers and
(for the token endpoints) a JSON body modelled as a string-keyed
association list. -/
structure HttpResponse where
  status : Nat
  headers : List (String × String) := []
  body : List (String × String) := []
  deriving Repr, DecidableEq

/-- Modelled from the spec: the response handling of `generate_code`. -/
def generate_code (resp : HttpResponse) : Except AuthError String :=
  if resp.status ≠ 302 then
    .error (.InvalidResponse "expected a redirect response")
  else
    match resp.headers.lookup "location" with
    | none => .error (.InvalidAuth "redirect did not carry an authorization code")
    | some loc =>
      match queryParam loc "code" with
      | some code => .ok code
      | none => .error (.InvalidAuth "redirect did not carry an authorization code")

/-! ## Token exchange (claims C4, C5)

Modelled from the spec: both token-endpoint calls POST a fixed body with
a fixed header set and classify the response by status and by the
presence of one JSON field (`refresh_token` for `generate_refresh_token`,
`id_token` for `generate_token`). -/

/-- A 2xx (successful) HTTP status. -/
def is2xx (status : Nat) : Bool :=
  decide (200 ≤ status ∧ status < 300)

/-- Modelled from the spec: the fixed token-request header set.  The spec
fixes that one constant set is sent on every token request but does not
list its entries; a representative vendor constant is used. -/
def HUBSPACE_TOKEN_HEADERS : List (String × String) :=
  [("Content-Type", "application/x-www-form-urlencoded")]

/-- An outgoing POST as the tests observe it: headers and form body. -/
structure HttpRequest where
  headers : List (String × String)
  data : List (String × String)
  deriving Repr, DecidableEq

/-- Modelled from the spec: the response handling of
`generate_refresh_token` — non-2xx is a transport failure, a 2xx body
without a `refresh_token` field is `InvalidResponse`, otherwise the
`refresh_token` string is returned unchanged. -/
def generate_refresh_token (resp : HttpResponse) : Except AuthError String :=
  if ¬ is2xx resp.status then
    .error (.TransportFailure resp.status)
  else
    match resp.body.lookup "refresh_token" with
    | some tok => .ok tok
    | none => .error (.InvalidResponse "response missing expected field")

/-- Modelled from the spec: the request `generate_token` sends for a given
refresh token — the fixed grant/scope/client body and the fixed header set. -/
def generate_token_request (refresh_token : String) : HttpRequest :=
  { headers := HUBSPACE_TOKEN_HEADERS,
    data := [("grant_type", "refresh_token"),
             ("refresh_token", refresh_token),
             ("scope", "openid email offline_access profile"),
             ("client_id", "hubspace_android")] }

/-- Modelled from the spec: the response handling of `generate_token` —
same policy as `generate_refresh_token` keyed on `id_token`, with
`TokenData.expiration` computed as `now` plus the server-provided
lifetime (`expires_in`, defaulting to 0 when absent). -/
def generate_token (resp : HttpResponse) (now : Int) : Except AuthError TokenData :=
  if ¬ is2xx resp.status then
    .error (.TransportFailure resp.status)
  else
    match resp.body.lookup "id_token" with
    | some tok =>
      let lifetime : Int :=
        match resp.body.lookup "expires_in" with
        | some s => (s.toInt?).getD 0
        | none => 0
      .ok ⟨tok, now + lifetime⟩
    | none => .error (.InvalidResponse "response missing expected field")

/-! ## Initial login composition (`perform_initial_login`, claim C6)

Modelled from the spec: `performInitialLogin` composes `webappLogin` then
`generateRefreshToken`, returning the latter's result unchanged.  The two
steps are taken as parameters (the test substitutes stubs for both). -/

/-- Modelled from the spec: `perform_initial_login` as the composition of
a `webapp_login` step and a `generate_refresh_token` step over a
transport `t`. -/
def perform_initial_login {T A B : Type}
    (webapp_login : T → Except AuthError A)
    (gen_refresh_token : A → T → Except AuthError B)
    (t : T) : Except AuthError B :=
  match webapp_login t with
  | .error e => .error e
  | .ok a => gen_refresh_token a t

/-! ## SHA-256 (FIPS 180-4)

Modelled from the spec: `generate_challenge_data` hashes the PKCE
verifier with SHA-256 (`hashlib.sha256`).  Bytes are `Nat`s below 256,
words are `Nat`s reduced mod 2^32. -/

/-- Right-rotation of a 32-bit word by `n` places. -/
def rotr32 (n x : Nat) : Nat :=
  ((x >>> n) ||| (x <<< (32 - n))) % 4294967296

/-- SHA-256 message-schedule sigma-0. -/
def ssig0 (x : Nat) : Nat := (rotr32 7 x) ^^^ (rotr32 18 x) ^^^ (x >>> 3)

/-- SHA-256 message-schedule sigma-1. -/
def ssig1 (x : Nat) : Nat := (rotr32 17 x) ^^^ (rotr32 19 x) ^^^ (x >>> 10)

/-- SHA-256 compression Sigma-0. -/
def bsig0 (x : Nat) : Nat := (rotr32 2 x) ^^^ (rotr32 13 x) ^^^ (rotr32 22 x)

/-- SHA-256 compression Sigma-1. -/
def bsig1 (x : Nat) : Nat := (rotr32 6 x) ^^^ (rotr32 11 x) ^^^ (rotr32 25 x)

/-- SHA-256 choice function; `~x` is `x ^^^ 0xffffffff` on 32-bit words. -/
def chFn (x y z : Nat) : Nat := (x &&& y) ^^^ ((x ^^^ 4294967295) &&& z)

/-- SHA-256 majority function. -/
def majFn (x y z : Nat) : Nat := (x &&& y) ^^^ (x &&& z) ^^^ (y &&& z)

/-- The 64 SHA-256 round constants (decimal). -/
def sha256K : List Nat :=
  [1116352408, 1899447441, 3049323471, 3921009573, 961987163,
   1508970993, 2453635748, 2870763221, 3624381080, 310598401,
   607225278, 1426881987, 1925078388, 2162078206, 2614888103,
   3248222580, 3835390401, 4022224774, 264347078, 604807628,
   770255983, 1249150122, 1555081692, 1996064986, 2554220882,
   2821834349, 2952996808, 3210313671, 3336571891, 3584528711,
   113926993, 338241895, 666307205, 773529912, 1294757372,
   1396182291, 1695183700, 1986661051, 2177026350, 2456956037,
   2730485921, 2820302411, 3259730800, 3345764771, 3516065817,
   3600352804, 4094571909, 275423344, 430227734, 506948616,
   659060556, 883997877, 958139571, 1322822218, 1537002063,
   1747873779, 1955562222, 2024104815, 2227730452, 2361852424,
   2428436474, 2756734187, 3204031479, 3329325298]

/-- The SHA-256 initial hash value (decimal). -/
def sha256H0 : List Nat :=
  [1779033703, 3144134277, 1013904242, 2773480762,
   1359893119, 2600822924, 528734635, 1541459225]

/-- Big-endian bytes of a 64-bit length field. -/
def word64Bytes (n : Nat) : List Nat :=
  (List.range 8).map fun i => (n >>> (8 * (7 - i))) % 256

/-- Big-endian bytes of a 32-bit word. -/
def word32Bytes (n : Nat) : List Nat :=
  (List.range 4).map fun i => (n >>> (8 * (3 - i))) % 256

/-- SHA-256 padding: append `0x80`, zeros up to 56 mod 64, then the
bit length as a big-endian 64-bit field. -/
def sha256pad (msg : List Nat) : List Nat :=
  let L := msg.length
  let zeros := (120 - ((L + 1) % 64)) % 64
  msg ++ [0x80] ++ List.replicate zeros 0 ++ word64Bytes (8 * L)

/-- Pack big-endian groups of four bytes into 32-bit words. -/
def toWords : List Nat → List Nat
  | a :: b :: c :: d :: rest =>
    (a * 16777216 + b * 65536 + c * 256 + d) :: toWords rest
  | _ => []

/-- Extend the 16 block words to the 64-entry message schedule. -/
def extendSchedule (w : Array Nat) : Array Nat :=
  (List.range 48).foldl
    (fun w i =>
      w.push ((ssig1 w[i + 14]! + w[i + 9]! + ssig0 w[i + 1]! + w[i]!)
        % 4294967296))
    w

/-- One SHA-256 compression step at round `i` over the working variables. -/
def sha256Round (w : Array Nat) (s : Array Nat) (i : Nat) : Array Nat :=
  let t1 := (s[7]! + bsig1 s[4]! + chFn s[4]! s[5]! s[6]! +
    sha256K.getD i 0 + w[i]!) % 4294967296
  let t2 := (bsig0 s[0]! + majFn s[0]! s[1]! s[2]!) % 4294967296
  #[(t1 + t2) % 4294967296, s[0]!, s[1]!, s[2]!,
    (s[3]! + t1) % 4294967296, s[4]!, s[5]!, s[6]!]

/-- Compress one 64-byte block into the running hash value. -/
def compressBlock (h : Array Nat) (block : List Nat) : Array Nat :=
  let w := extendSchedule (toWords block).toArray
  let s := (List.range 64).foldl (sha256Round w) h
  (Array.range 8).map fun i => (h[i]! + s[i]!) % 4294967296

/-- Process the padded message 64 bytes at a time (`fuel` bounds the
number of blocks; it is the exact count at every call site). -/
def processBlocks : Nat → Array Nat → List Nat → Array Nat
  | 0, h, _ => h
  | _ + 1, h, [] => h
  | fuel + 1, h, l => processBlocks fuel (compressBlock h (l.take 64)) (l.drop 64)

/-- SHA-256 of a byte list, as a 32-byte list. -/
def sha256 (msg : List Nat) : List Nat :=
  let padded := sha256pad msg
  let hf := processBlocks (padded.length / 64) sha256H0.toArray padded
  (hf.toList.map word32Bytes).flatten

/-! ## URL-safe base64 and PKCE challenge generation (claim C7)

Modelled from the spec: `generate_challenge_data` draws a random URL-safe
verifier (`secrets.token_urlsafe(32)`: 32 random bytes, base64url, no
padding) and sets `challenge` to the URL-safe base64 of the SHA-256 of
the verifier, with padding stripped.  Randomness is modelled by a seed
function supplying the random bytes. -/

/-- The URL-safe base64 alphabet. -/
def b64urlAlphabet : String :=
  "ABCDEFGHIJKLMNOPQRSTUVWXYZabcdefghijklmnopqrstuvwxyz0123456789-_"

theorem b64urlAlphabet_length : b64urlAlphabet.toList.length = 64 := by decide

/-- The base64url digit for a 6-bit value. -/
def b64char (n : Nat) : Char :=
  b64urlAlphabet.toList.get
    ⟨n % 64, by rw [b64urlAlphabet_length]; exact Nat.mod_lt _ (by decide)⟩

/-- URL-safe base64 encoding without padding characters. -/
def b64urlNoPad : List Nat → List Char
  | [] => []
  | [a] => [b64char (a / 4), b64char (a % 4 * 16)]
  | [a, b] =>
    [b64char (a / 4), b64char (a % 4 * 16 + b / 16), b64char (b % 16 * 4)]
  | a :: b :: c :: rest =>
    b64char (a / 4) :: b64char (a % 4 * 16 + b / 16) ::
      b64char (b % 16 * 4 + c / 64) :: b64char (c % 64) :: b64urlNoPad rest

/-- The bytes of an ASCII string (`str.encode()`; every string the auth
module encodes is ASCII, where UTF-8 bytes are the code points). -/
def asciiBytes (s : String) : List Nat :=
  s.toList.map Char.toNat

/-- Modelled from the spec: `secrets.token_urlsafe` — `nbytes` random
bytes, base64url-encoded with padding stripped; byte `i` is drawn from
the random source as `seed i`. -/
def token_urlsafe (seed : Nat → Nat) (nbytes : Nat) : String :=
  ⟨b64urlNoPad ((List.range nbytes).map fun i => seed i % 256)⟩

/-- A PKCE verifier/challenge pair (`challenge_data` in the tests). -/
structure ChallengeData where
  verifier : String
  challenge : String
  deriving Repr, DecidableEq

/-- Modelled from the spec: `generate_challenge_data` — a fresh 32-byte
URL-safe verifier and `challenge = base64url(sha256(verifier))` with
padding stripped. -/
def generate_challenge_data (seed : Nat → Nat) : ChallengeData :=
  let verifier := token_urlsafe seed 32
  { verifier := verifier
    challenge := ⟨b64urlNoPad (sha256 (asciiBytes verifier))⟩ }

/-- A character is URL-safe when it is an unreserved base64url character. -/
def isUrlSafeChar (c : Char) : Bool :=
  c.isAlphanum || c = '-' || c = '_'

/-! ## Theorems -/

/-- C3: `is_expired` is true exactly when no `TokenData` is cached or
`now >= expiration`: true with no token, true when the stored expiration
is `now - 5`, false when it is `now + 5`. -/
theorem is_expired_spec (now : Int) :
    (∀ cached, is_expired cached now = true ↔
      cached = none ∨ ∃ td, cached = some td ∧ td.expiration ≤ now) ∧
    is_expired none now = true ∧
    (∀ tok, is_expired (some ⟨tok, now - 5⟩) now = true) ∧
    (∀ tok, is_expired (some ⟨tok, now + 5⟩) now = false) := by
  refine ⟨fun cached => ?_, rfl, fun tok => ?_, fun tok => ?_⟩
  · cases cached with
    | none => simp [is_expired]
    | some td => simp [is_expired]
  · simp [is_expired]
  · simp [is_expired]

/-- C3 witness: the three test rows at `now = 100`. -/
theorem is_expired_spec_witness :
    is_expired none 100 = true ∧
    is_expired (some ⟨"token", 95⟩) 100 = true ∧
    is_expired (some ⟨"token", 105⟩) 100 = false := by
  refine ⟨(is_expired_spec 100).2.1, ?_, ?_⟩
  · simpa using (is_expired_spec 100).2.2.1 "token"
  · simpa using (is_expired_spec 100).2.2.2 "token"

/-- C9: `__post_init__` rewrites `model` by a fixed lookup over
`(model, device_class, default_image)`: an empty model with the
snyder-park fan icon becomes `DriskolFan`; `"Smart Stake Timer"` becomes
`YardStake` (unless the a19 bulb icon rule overrides it afterwards); the
a19 bulb icon sets the model unconditionally, overwriting any supplied
value; and a model that is neither empty, `"TBD"`, nor
`"Smart Stake Timer"` is left unchanged when the a19 icon is absent. -/
theorem post_init_model_spec :
    (∀ d : HubSpaceDevice, hubSpaceDevice_post_init d =
      { d with model := post_init_model d.model d.device_class d.default_image }) ∧
    (∀ dc, post_init_model "" dc "ceiling-fan-snyder-park-icon" = "DriskolFan") ∧
    (∀ dc img, img ≠ "a19-e26-color-cct-60w-smd-frosted-icon" →
      post_init_model "Smart Stake Timer" dc img = "YardStake") ∧
    (∀ m dc, post_init_model m dc "a19-e26-color-cct-60w-smd-frosted-icon" =
      "12A19060WRGBWH2") ∧
    (∀ m dc img, m ≠ "" → m ≠ "TBD" → m ≠ "Smart Stake Timer" →
      img ≠ "a19-e26-color-cct-60w-smd-frosted-icon" →
      post_init_model m dc img = m) := by
  refine ⟨fun d => rfl, fun dc => ?_, fun dc img himg => ?_,
    fun m dc => ?_, fun m dc img h1 h2 h3 h4 => ?_⟩
  · simp [post_init_model]
  · simp [post_init_model, himg]
  · simp [post_init_model]
  · simp [post_init_model, h1, h2, h3, h4]

/-- C9 witness: the lookup at concrete devices — the snyder-park fan,
the stake timer, the a19 bulb overwrite, and an untouched model. -/
theorem post_init_model_spec_witness :
    post_init_model "" "fan" "ceiling-fan-snyder-park-icon" = "DriskolFan" ∧
    post_init_model "Smart Stake Timer" "" "stake-icon" = "YardStake" ∧
    post_init_model "SuppliedModel" "light"
      "a19-e26-color-cct-60w-smd-frosted-icon" = "12A19060WRGBWH2" ∧
    post_init_model "KeepMe" "fan" "ceiling-fan-chandra-icon" = "KeepMe" :=
  ⟨post_init_model_spec.2.1 "fan",
   post_init_model_spec.2.2.1 "" "stake-icon" (by decide),
   post_init_model_spec.2.2.2.1 "SuppliedModel" "light",
   post_init_model_spec.2.2.2.2 "KeepMe" "fan" "ceiling-fan-chandra-icon"
     (by decide) (by decide) (by decide) (by decide)⟩

/-- C10: `HubSpaceDevice.__hash__` depends only on `(id, friendly_name)`:
two devices agreeing on those two fields hash equal, whatever their other
fields. -/
theorem hubSpaceDevice_hash_spec (d1 d2 : HubSpaceDevice)
    (hid : d1.id = d2.id) (hname : d1.friendly_name = d2.friendly_name) :
    hubSpaceDevice_hash d1 = hubSpaceDevice_hash d2 := by
  simp [hubSpaceDevice_hash, hid, hname]

/-- C10 witness: two devices sharing only `id` and `friendly_name`
(different `model`, `device_class`, `states`, `children`, ...) hash equal. -/
theorem hubSpaceDevice_hash_spec_witness :
    hubSpaceDevice_hash
      { id := "dev-1", device_id := "a", model := "ZandraFan",
        device_class := "fan", default_name := "Fan",
        default_image := "ceiling-fan-chandra-icon", friendly_name := "My Fan",
        states := [⟨"power", "on", none, none⟩], children := ["c1"] } =
    hubSpaceDevice_hash
      { id := "dev-1", device_id := "b", model := "YardStake",
        device_class := "stake", default_name := "Stake",
        default_image := "stake-icon", friendly_name := "My Fan" } :=
  hubSpaceDevice_hash_spec _ _ rfl rfl

/-- C1: `extract_login_data` is all-or-nothing with three failure kinds: a
missing session-identifier element gives `MalformedPage`, a missing form
action gives `MalformedFormAction`, a query string lacking any of
`session_code`/`execution`/`tab_id` gives `MalformedQueryString`; a
well-formed page yields exactly the triple from its action URL, and any
`ok` result carries all three values from the page. -/
theorem extract_login_data_spec (page : LoginPage) :
    (page.hasSessionElement = false →
      extract_login_data page =
        .error (.MalformedPage "unable to parse login page")) ∧
    (page.hasSessionElement = true → page.formAction = none →
      extract_login_data page =
        .error (.MalformedFormAction "unable to extract login url")) ∧
    (∀ url, page.hasSessionElement = true → page.formAction = some url →
      (queryParam url "session_code" = none ∨ queryParam url "execution" = none ∨
        queryParam url "tab_id" = none) →
      extract_login_data page =
        .error (.MalformedQueryString "unable to parse login url")) ∧
    (∀ url s e t, page.hasSessionElement = true → page.formAction = some url →
      queryParam url "session_code" = some s →
      queryParam url "execution" = some e →
      queryParam url "tab_id" = some t →
      extract_login_data page = .ok ⟨s, e, t⟩) ∧
    (∀ r, extract_login_data page = .ok r →
      page.hasSessionElement = true ∧ ∃ url, page.formAction = some url ∧
        queryParam url "session_code" = some r.sessionCode ∧
        queryParam url "execution" = some r.execution ∧
        queryParam url "tab_id" = some r.tabId) := by
  obtain ⟨hs, fa⟩ := page
  refine ⟨fun h => ?_, fun h h' => ?_, fun url h h' hmiss => ?_,
    fun url s e t h h' h1 h2 h3 => ?_, fun r hok => ?_⟩
  · subst h; simp [extract_login_data]
  · subst h; subst h'; simp [extract_login_data]
  · subst h; subst h'
    rcases hq1 : queryParam url "session_code" with _ | s <;>
      rcases hq2 : queryParam url "execution" with _ | e <;>
        rcases hq3 : queryParam url "tab_id" with _ | t <;>
          simp [extract_login_data, hq1, hq2, hq3] <;> simp_all
  · subst h; subst h'
    simp [extract_login_data, h1, h2, h3]
  · cases hs with
    | false => simp [extract_login_data] at hok
    | true =>
      cases fa with
      | none => simp [extract_login_data] at hok
      | some url =>
        refine ⟨rfl, url, rfl, ?_⟩
        revert hok
        rcases hq1 : queryParam url "session_code" with _ | s <;>
          rcases hq2 : queryParam url "execution" with _ | e <;>
            rcases hq3 : queryParam url "tab_id" with _ | t <;>
              simp [extract_login_data, hq1, hq2, hq3] <;>
                rintro rfl <;> simp

/-- C1 witness: the four test pages — a well-formed page, a page missing
the session element, a page missing the form action, and an action URL
missing query parameters. -/
theorem extract_login_data_spec_witness :
    extract_login_data
      ⟨true, some "https://host/login?session_code=sc&execution=ex&tab_id=tb"⟩ =
      .ok ⟨"sc", "ex", "tb"⟩ ∧
    extract_login_data ⟨false, none⟩ =
      .error (.MalformedPage "unable to parse login page") ∧
    extract_login_data ⟨true, none⟩ =
      .error (.MalformedFormAction "unable to extract login url") ∧
    extract_login_data ⟨true, some "https://host/login?session_code=sc"⟩ =
      .error (.MalformedQueryString "unable to parse login url") :=
  ⟨(extract_login_data_spec _).2.2.2.1
      "https://host/login?session_code=sc&execution=ex&tab_id=tb"
      "sc" "ex" "tb" rfl rfl (by decide) (by decide) (by decide),
   (extract_login_data_spec _).1 rfl,
   (extract_login_data_spec _).2.1 rfl rfl,
   (extract_login_data_spec _).2.2.1 "https://host/login?session_code=sc"
      rfl rfl (Or.inr (Or.inl (by decide)))⟩

/-- C2: `generate_code` returns the `code` query parameter of the
`location` header on a 302 response, fails with `InvalidAuth` when a 302
location carries no `code` parameter, and fails with `InvalidResponse`
on any non-302 status. -/
theorem generate_code_spec (resp : HttpResponse) :
    (resp.status ≠ 302 →
      generate_code resp = .error (.InvalidResponse "expected a redirect response")) ∧
    (∀ loc code, resp.status = 302 → resp.headers.lookup "location" = some loc →
      queryParam loc "code" = some code → generate_code resp = .ok code) ∧
    (∀ loc, resp.status = 302 → resp.headers.lookup "location" = some loc →
      queryParam loc "code" = none →
      generate_code resp =
        .error (.InvalidAuth "redirect did not carry an authorization code")) := by
  refine ⟨fun h => ?_, fun loc code h hloc hcode => ?_, fun loc h hloc hnone => ?_⟩
  · simp [generate_code, h]
  · simp [generate_code, h, hloc, hcode]
  · simp [generate_code, h, hloc, hnone]

/-- C2 witness: the three test rows — status 302 with
`location: https://cool.beans?code=beans` returns `"beans"`, status 302
with `location: nope` is `InvalidAuth`, status 200 is `InvalidResponse`. -/
theorem generate_code_spec_witness :
    generate_code
      ⟨302, [("location", "https://cool.beans?code=beans")], []⟩ = .ok "beans" ∧
    generate_code ⟨302, [("location", "nope")], []⟩ =
      .error (.InvalidAuth "redirect did not carry an authorization code") ∧
    generate_code ⟨200, [], []⟩ =
      .error (.InvalidResponse "expected a redirect response") :=
  ⟨(generate_code_spec _).2.1 "https://cool.beans?code=beans" "beans"
      rfl rfl (by decide),
   (generate_code_spec _).2.2 "nope" rfl rfl (by decide),
   (generate_code_spec _).1 (by decide)⟩

/-- C4: `generate_refresh_token` fails with `TransportFailure` on a
non-2xx status, fails with `InvalidResponse` on a 2xx body lacking
`refresh_token`, and returns the `refresh_token` value unchanged
otherwise. -/
theorem generate_refresh_token_spec (resp : HttpResponse) :
    (is2xx resp.status = false →
      generate_refresh_token resp = .error (.TransportFailure resp.status)) ∧
    (is2xx resp.status = true → resp.body.lookup "refresh_token" = none →
      generate_refresh_token resp =
        .error (.InvalidResponse "response missing expected field")) ∧
    (∀ tok, is2xx resp.status = true →
      resp.body.lookup "refresh_token" = some tok →
      generate_refresh_token resp = .ok tok) := by
  refine ⟨fun h => ?_, fun h hnone => ?_, fun tok h hsome => ?_⟩
  · simp [generate_refresh_token, h]
  · simp [generate_refresh_token, h, hnone]
  · simp [generate_refresh_token, h, hsome]

/-- C4 witness: the three test rows — status 403 is a transport failure,
a 200 body with only `refresh_token2` is `InvalidResponse`, and a 200
body with `refresh_token = cool_beans` yields `"cool_beans"`. -/
theorem generate_refresh_token_spec_witness :
    generate_refresh_token ⟨403, [], []⟩ = .error (.TransportFailure 403) ∧
    generate_refresh_token ⟨200, [], [("refresh_token2", "cool_beans")]⟩ =
      .error (.InvalidResponse "response missing expected field") ∧
    generate_refresh_token ⟨200, [], [("refresh_token", "cool_beans")]⟩ =
      .ok "cool_beans" :=
  ⟨(generate_refresh_token_spec _).1 (by decide),
   (generate_refresh_token_spec _).2.1 (by decide) (by decide),
   (generate_refresh_token_spec _).2.2 "cool_beans" (by decide) (by decide)⟩

/-- C5: `generate_token` always sends the fixed request — the constant
header set and the body
`{grant_type: refresh_token, refresh_token, scope, client_id}` — and its
response handling takes `TokenData.token` from the `id_token` field, with
`InvalidResponse` when a 2xx JSON body lacks it and `TransportFailure`
on a non-2xx status. -/
theorem generate_token_spec (rt : String) (resp : HttpResponse) (now : Int) :
    (generate_token_request rt).headers = HUBSPACE_TOKEN_HEADERS ∧
    (generate_token_request rt).data =
      [("grant_type", "refresh_token"),
       ("refresh_token", rt),
       ("scope", "openid email offline_access profile"),
       ("client_id", "hubspace_android")] ∧
    (is2xx resp.status = false →
      generate_token resp now = .error (.TransportFailure resp.status)) ∧
    (is2xx resp.status = true → resp.body.lookup "id_token" = none →
      generate_token resp now =
        .error (.InvalidResponse "response missing expected field")) ∧
    (∀ tok, is2xx resp.status = true → resp.body.lookup "id_token" = some tok →
      ∃ exp, generate_token resp now = .ok ⟨tok, exp⟩) := by
  refine ⟨rfl, rfl, fun h => ?_, fun h hnone => ?_, fun tok h hsome => ?_⟩
  · simp [generate_token, h]
  · simp [generate_token, h, hnone]
  · refine ⟨now + (match resp.body.lookup "expires_in" with
      | some s => (s.toInt?).getD 0
      | none => 0), ?_⟩
    simp [generate_token, h, hsome]

/-- C5 witness: the fixed request for refresh token `"code"`, and the
three response rows of the test (status 403, a 200 body with only
`id_token2`, and a 200 body with `id_token = cool_beans`). -/
theorem generate_token_spec_witness :
    (generate_token_request "code").headers = HUBSPACE_TOKEN_HEADERS ∧
    (generate_token_request "code").data =
      [("grant_type", "refresh_token"),
       ("refresh_token", "code"),
       ("scope", "openid email offline_access profile"),
       ("client_id", "hubspace_android")] ∧
    generate_token ⟨403, [], []⟩ 0 = .error (.TransportFailure 403) ∧
    generate_token ⟨200, [], [("id_token2", "cool_beans")]⟩ 0 =
      .error (.InvalidResponse "response missing expected field") ∧
    ∃ exp, generate_token ⟨200, [], [("id_token", "cool_beans")]⟩ 0 =
      .ok ⟨"cool_beans", exp⟩ :=
  ⟨(generate_token_spec "code" ⟨403, [], []⟩ 0).1,
   (generate_token_spec "code" ⟨403, [], []⟩ 0).2.1,
   (generate_token_spec "code" ⟨403, [], []⟩ 0).2.2.1 (by decide),
   (generate_token_spec "code" ⟨200, [], [("id_token2", "cool_beans")]⟩ 0).2.2.2.1
      (by decide) (by decide),
   (generate_token_spec "code" ⟨200, [], [("id_token", "cool_beans")]⟩ 0).2.2.2.2
      "cool_beans" (by decide) (by decide)⟩

/-- C6: `perform_initial_login` is the pure composition of `webapp_login`
and `generate_refresh_token`: for every pair of stub implementations, a
successful first step's result is fed to the second step, whose result is
returned unchanged, and a failed first step's error propagates. -/
theorem perform_initial_login_spec {T A B : Type}
    (webapp_login : T → Except AuthError A)
    (gen_refresh_token : A → T → Except AuthError B) (t : T) :
    (∀ a, webapp_login t = .ok a →
      perform_initial_login webapp_login gen_refresh_token t =
        gen_refresh_token a t) ∧
    (∀ e, webapp_login t = .error e →
      perform_initial_login webapp_login gen_refresh_token t = .error e) := by
  refine ⟨fun a ha => ?_, fun e he => ?_⟩
  · simp [perform_initial_login, ha]
  · simp [perform_initial_login, he]

/-- C6 witness: with the test's stubs (`webapp_login` returning `"cool"`
and `generate_refresh_token` returning `"beans"`), the composition
returns `"beans"` unchanged. -/
theorem perform_initial_login_spec_witness :
    perform_initial_login (T := Unit) (A := String) (B := String)
      (fun _ => .ok "cool") (fun _ _ => .ok "beans") () = .ok "beans" :=
  (perform_initial_login_spec (fun _ => .ok "cool")
    (fun _ _ => .ok "beans") ()).1 "cool" rfl

/- The FIPS 180-4 test vector for `"abc"`, checking the SHA-256
embedding against its published digest. -/
set_option maxRecDepth 100000 in
example : sha256 [0x61, 0x62, 0x63] =
    [0xba, 0x78, 0x16, 0xbf, 0x8f, 0x01, 0xcf, 0xea, 0x41, 0x41, 0x40, 0xde,
     0x5d, 0xae, 0x22, 0x23, 0xb0, 0x03, 0x61, 0xa3, 0x96, 0x17, 0x7a, 0x9c,
     0xb4, 0x10, 0xff, 0x61, 0xf2, 0x00, 0x15, 0xad] := by decide

/-- Every base64url digit is a URL-safe character. -/
theorem b64char_urlsafe (n : Nat) : isUrlSafeChar (b64char n) = true := by
  have halpha : ∀ c ∈ b64urlAlphabet.toList, isUrlSafeChar c = true := by decide
  exact halpha _ (List.get_mem _ _ _)

/-- Every character of a base64url encoding is URL-safe. -/
theorem b64urlNoPad_urlsafe (l : List Nat) :
    ∀ c ∈ b64urlNoPad l, isUrlSafeChar c = true := by
  induction l using b64urlNoPad.induct with
  | case1 => simp [b64urlNoPad]
  | case2 a =>
    intro c hc
    simp [b64urlNoPad] at hc
    rcases hc with rfl | rfl <;> exact b64char_urlsafe _
  | case3 a b =>
    intro c hc
    simp [b64urlNoPad] at hc
    rcases hc with rfl | rfl | rfl <;> exact b64char_urlsafe _
  | case4 a b c0 rest ih =>
    intro c hc
    simp only [b64urlNoPad, List.mem_cons] at hc
    rcases hc with rfl | rfl | rfl | rfl | hmem
    · exact b64char_urlsafe _
    · exact b64char_urlsafe _
    · exact b64char_urlsafe _
    · exact b64char_urlsafe _
    · exact ih c hmem

/-- Length of an unpadded base64url encoding of `n` bytes:
`(4n + 2) / 3` characters. -/
theorem b64urlNoPad_length (l : List Nat) :
    (b64urlNoPad l).length = (4 * l.length + 2) / 3 := by
  induction l using b64urlNoPad.induct with
  | case1 => simp [b64urlNoPad]
  | case2 a => simp [b64urlNoPad]
  | case3 a b => simp [b64urlNoPad]
  | case4 a b c rest ih =>
    simp [b64urlNoPad, ih]
    omega

/-- C7: for every random seed, `generate_challenge_data` yields a pair
whose `challenge` is the padding-stripped URL-safe base64 of the SHA-256
of its `verifier`, and whose `verifier` is a URL-safe string of 43–128
characters. -/
theorem generate_challenge_data_spec (seed : Nat → Nat) :
    (generate_challenge_data seed).challenge =
      String.mk (b64urlNoPad (sha256 (asciiBytes
        (generate_challenge_data seed).verifier))) ∧
    43 ≤ (generate_challenge_data seed).verifier.length ∧
    (generate_challenge_data seed).verifier.length ≤ 128 ∧
    ∀ c ∈ (generate_challenge_data seed).verifier.toList,
      isUrlSafeChar c = true := by
  have hlen : (generate_challenge_data seed).verifier.length = 43 := by
    have h0 : (generate_challenge_data seed).verifier.length =
        (b64urlNoPad ((List.range 32).map fun i => seed i % 256)).length := rfl
    rw [h0, b64urlNoPad_length]
    simp
  refine ⟨rfl, by omega, by omega, ?_⟩
  have h1 : (generate_challenge_data seed).verifier.toList =
      b64urlNoPad ((List.range 32).map fun i => seed i % 256) := rfl
  rw [h1]
  exact b64urlNoPad_urlsafe _

/-- C7 witness: the length bounds and URL-safety of the first verifier
character at the concrete seed `fun i => i`. -/
theorem generate_challenge_data_spec_witness :
    43 ≤ (generate_challenge_data (fun i => i)).verifier.length ∧
    (generate_challenge_data (fun i => i)).verifier.length ≤ 128 ∧
    isUrlSafeChar 'A' = true :=
  ⟨(generate_challenge_data_spec (fun i => i)).2.1,
   (generate_challenge_data_spec (fun i => i)).2.2.1,
   (generate_challenge_data_spec (fun i => i)).2.2.2 'A' (by decide)⟩

end MykoAsync
